import Mathlib

/-! Verification of the curveball CLI orchestration layer
(`src/curveball/scripts/cli.py`).  The glue logic of the script — path
resolution, file discovery, background correction, strain ordering, the
per-strain fitting loop and result-record assembly — is translated into
executable Lean definitions.  The external analysis library calls
(model fitting, competition simulation, plotting, file-format parsing)
are out of scope for the script and are modelled as oracle parameters. -/

namespace Curveball

/-- A single row of the long-form readings table produced by the format
handlers: well identifier, strain label, time, optical density. -/
structure Reading where
  well : String
  strain : String
  time : ℚ
  od : ℚ
deriving DecidableEq

/-- One row of the plate layout table: well identifier, strain label and
grouping colour. -/
structure PlateWell where
  well : String
  strain : String
  color : String
deriving DecidableEq

/-- The fields of one external fit result that the script reads:
`fit.model.name`, `fit.chisqr`, `fit.bic`, `fit.aic` and the parameter
dictionary entries `y0`, `K`, `r` (always present) and `nu`, `q0`, `v`
(optional, hence `Option`). -/
structure Fit where
  modelName : String
  chisqr : ℚ
  bic : ℚ
  aic : ℚ
  y0 : ℚ
  K : ℚ
  r : ℚ
  nu : Option ℚ
  q0 : Option ℚ
  v : Option ℚ
deriving DecidableEq

/-- One row of the output table assembled by `process_file` (the `res`
dictionary).  The `w` key is only set on some paths, hence `Option`. -/
structure Record where
  folder : String
  filename : String
  strain : String
  model : String
  RSS : ℚ
  bic : ℚ
  aic : ℚ
  benchmark : ℚ
  y0 : ℚ
  K : ℚ
  r : ℚ
  nu : ℚ
  q0 : ℚ
  v : ℚ
  max_growth_rate : ℚ
  lag : ℚ
  has_lag : Bool
  has_nu : Bool
  w : Option ℚ
deriving DecidableEq

/-- The two warning messages `process_file` can emit through `echo_error`
without aborting the run. -/
inductive Warn
  | blankMissing
  | refMissing
deriving DecidableEq

/-- Oracle collecting the external `curveball` library entry points used by
the fitting loop.  `fitModel` returns the sorted fit-results list as
first element (`fit_results[0]`) plus the remaining elements. -/
structure FitOracle where
  fitModel : List Reading → Fit × List Fit
  benchmark : List Fit → ℚ
  findMaxGrowth : Fit → ℚ
  findLag : Fit → ℚ
  hasLag : List Fit → Bool
  hasNu : List Fit → Bool
  compete : Fit → Fit → ℚ → List String → ℚ
  fitnessLTEE : ℚ → ℚ


/-- Oracle for the plotting side effects; each call may fail, and the
script installs no exception handler around any of them. -/
structure PlotOracle where
  plotWells : List Reading → Except String Unit
  plotStrains : List Reading → Except String Unit
  plotStrainFit : String → Except String Unit
  plotCompetition : String → String → Except String Unit

/-- Error taxonomy of the CLI: `click.FileError` (filename plus hint),
`click.ClickException` (user-level message), and any other Python
exception that escapes (carrying its message). -/
inductive CliError
  | fileError (filename : String) (hint : String)
  | clickException (message : String)
  | other (message : String)
deriving DecidableEq

/-! ### String/path utilities (`os.path`, `glob`) -/

/-- Test whether a string starts with the character `/`
(POSIX absolute path). -/
def strIsAbs (s : String) : Bool :=
  match s.data with
  | [] => false
  | c :: _ => c == '/'

/-- Test whether a string ends with the character `/`. -/
def strEndsSlash (s : String) : Bool :=
  match s.data.getLast? with
  | some c => c == '/'
  | none => false

/-- Test whether a string starts with a dot (hidden file, skipped by
`glob`). -/
def startsWithDot (s : String) : Bool :=
  match s.data with
  | [] => false
  | c :: _ => c == '.'

/-- POSIX `os.path.join` for two components: an absolute second component
discards the first; otherwise the components are joined with `/` unless
the first already ends in `/` or is empty. -/
def osPathJoin (a b : String) : String :=
  if strIsAbs b then b
  else if a.data.isEmpty then b
  else if strEndsSlash a then a ++ b
  else a ++ "/" ++ b

/-- The characters of the last `/`-separated component of a path. -/
def lastComponentChars (cs : List Char) : List Char :=
  cs.foldl (fun acc c => if c == '/' then [] else acc ++ [c]) []

/-- Split a character list at every dot, keeping empty groups
(the list analogue of splitting a string on `.`). -/
def splitOnDot (cs : List Char) : List (List Char) :=
  cs.foldr
    (fun c acc =>
      if c == '.' then [] :: acc
      else
        match acc with
        | g :: rest => (c :: g) :: rest
        | [] => [[c]])
    [[]]

/-- The extension of a path under `os.path.splitext` semantics: the part
of the basename from its last dot on, except that leading dots of the
basename never start an extension. -/
def extOfChars (cs : List Char) : List Char :=
  let base := lastComponentChars cs
  let parts := splitOnDot base
  if 2 ≤ parts.length && parts.dropLast.any (fun g => !g.isEmpty) then
    '.' :: parts.getLastD []
  else []

/-- `os.path.splitext(p)[-1].lower()`: the lower-cased extension of a
path. -/
def extLower (p : String) : String :=
  String.mk ((extOfChars p.data).map Char.toLower)

/-- `os.path.dirname` (POSIX): everything up to the last `/`, with
trailing slashes stripped unless the result consists only of slashes. -/
def dirnameOf (p : String) : String :=
  let head := ((p.data.reverse).dropWhile (fun c => c != '/')).reverse
  if head.isEmpty || head.all (fun c => c == '/') then String.mk head
  else String.mk ((head.reverse.dropWhile (fun c => c == '/')).reverse)

/-- Drop the `os.path.splitext` extension from a character list. -/
def dropExtChars (cs : List Char) : List Char :=
  cs.take (cs.length - (extOfChars cs).length)

/-- The file-name field of a result record:
`os.path.splitext(os.path.basename(fn))[0]` where `fn` is the file path
already stripped of its extension. -/
def stemOf (p : String) : String :=
  String.mk (dropExtChars (lastComponentChars (dropExtChars p.data)))

/-! ### Plate loading (`find_plate_file`, `load_plate`, `plate`) -/

/-- Abstraction of `os.path.exists` over the ambient filesystem. -/
structure PathFS where
  pathExists : String → Bool

/-- Translation of `find_plate_file`: try `folder/file` in the working
directory, fall back to the package resource path, and fail with a
`click.FileError` carrying the hint `can't find file.` when neither
exists.  `resourceFilename` stands for the external
`pkg_resources.resource_filename`. -/
def find_plate_file (fs : PathFS) (resourceFilename : String → String → String)
    (plate_folder plate_file : String) : Except CliError String :=
  let p1 := osPathJoin plate_folder plate_file
  let p2 := if fs.pathExists p1 then p1 else resourceFilename plate_folder plate_file
  if fs.pathExists p2 then Except.ok p2
  else Except.error (CliError.fileError p2 "can't find file.")

/-- A parsed CSV table: header row plus data rows (the external
`pandas.read_csv`/`to_csv` pair is modelled at the record level, a
well-formed CSV file being a nonempty list of rows of cells). -/
structure PlateTable where
  columns : List String
  rows : List (List String)
deriving DecidableEq

/-- Record-level model of `load_plate`: the first row of a well-formed
CSV file is the header, the rest are data rows; an empty file is a parse
failure. -/
def load_plate : List (List String) → Except CliError PlateTable
  | [] => Except.error (CliError.fileError "plate" "parser error, probably not a CSV file")
  | header :: rows => Except.ok ⟨header, rows⟩

/-- Record-level model of `DataFrame.to_csv(..., index=False)`: header
row followed by the data rows, no index column. -/
def to_csv_noIndex (t : PlateTable) : List (List String) :=
  t.columns :: t.rows

/-- The `plate` command: load the plate file and re-serialize it without
the index. -/
def plateCommand (file : List (List String)) : Except CliError (List (List String)) :=
  (load_plate file).map to_csv_noIndex

/-- The entries of the `Strain` column of a CSV file (empty when the file
has no header or no `Strain` column); used to compare strain sets. -/
def strainColumnOf (file : List (List String)) : List String :=
  match file with
  | [] => []
  | header :: rows =>
    match header.findIdx? (fun c => c == "Strain") with
    | some i => rows.map (fun r => r.getD i "")
    | none => []

/-! ### File discovery (`analyse`, lines 153-161) -/

/-- Abstraction of the filesystem as seen by `analyse`: a directory test,
the entry names of each directory, and the external `glob.glob`
expansion used for non-directory pattern arguments. -/
structure DirFS where
  isDir : String → Bool
  entries : String → List String
  globPattern : String → List String

/-- `glob.glob(os.path.join(path, '*'))`: every entry of the directory
whose name does not start with a dot, joined onto the directory path. -/
def globStar (fs : DirFS) (path : String) : List String :=
  ((fs.entries path).filter (fun n => !startsWithDot n)).map (fun n => osPathJoin path n)

/-- The recognized extensions: the keys of `file_extension_handlers`. -/
def extensionKeys : List String := [".mat", ".xlsx"]

/-- File discovery of `analyse`: for a directory, glob its entries and
then join the directory path onto each result a second time (the script
applies `os.path.join(path, fn)` to paths that already carry the
directory prefix); otherwise expand the argument as a glob pattern.
Either way, keep only files whose lower-cased extension is a key of the
handler mapping. -/
def discoverFiles (fs : DirFS) (path : String) : List String :=
  let files :=
    if fs.isDir path then (globStar fs path).map (fun fn => osPathJoin path fn)
    else fs.globPattern path
  files.filter (fun fn => extLower fn ∈ extensionKeys)

/-! ### Background correction (`process_file`, lines 193-200) -/

/-- `df.Time.min()`: the minimum time of the readings table (0 for an
empty table, which pandas would instead give as NaN — theorems about
the correction therefore assume the blank strain has a reading at the
minimum time). -/
def timeMin : List Reading → ℚ
  | [] => 0
  | r :: rs => rs.foldl (fun m x => if x.time < m then x.time else m) r.time

/-- `df.Time.max()`: the maximum time of the readings table. -/
def timeMax : List Reading → ℚ
  | [] => 0
  | r :: rs => rs.foldl (fun m x => if m < x.time then x.time else m) r.time

/-- The background scalar: the mean optical density of the blank-strain
rows taken at the minimum observed time. -/
def bgMean (df : List Reading) (b : String) : ℚ :=
  let rows := df.filter (fun r => r.strain == b && r.time == timeMin df)
  (rows.map (fun r => r.od)).sum / (rows.length : ℚ)

/-- `df.OD -= bg; df.loc[df.OD < 0, 'OD'] = 0`: subtract the background
from every row and clamp negative results to zero. -/
def backgroundCorrect (df : List Reading) (b : String) : List Reading :=
  df.map (fun r =>
    { r with od := if r.od - bgMean df b < 0 then 0 else r.od - bgMean df b })

/-- The correction step of `process_file`: when a blank strain is given
and present among the plate strains, apply the background correction;
when given but absent, warn and leave the table unchanged. -/
def correctionStep (df0 : List Reading) (blank : Option String)
    (plateStrains : List String) : List Reading × List Warn :=
  match blank with
  | none => (df0, [])
  | some b =>
    if b ∈ plateStrains then (backgroundCorrect df0 b, [])
    else (df0, [Warn.blankMissing])

/-! ### Strain ordering (`process_file`, lines 191 and 211-217) -/

/-- Python `list.remove`: drop the first occurrence of an element. -/
def removeFirst : List String → String → List String
  | [], _ => []
  | x :: xs, a => if x = a then xs else x :: removeFirst xs a

/-- Helper for `pandas.Series.unique`: keep the first occurrence of each
element, threading the set of elements already seen. -/
def uniqueAux : List String → List String → List String
  | _, [] => []
  | seen, x :: xs =>
    if x ∈ seen then uniqueAux seen xs else x :: uniqueAux (x :: seen) xs

/-- `plate.Strain.unique().tolist()`: first occurrences, in order. -/
def uniqueList (l : List String) : List String :=
  uniqueAux [] l

/-- The deduplicated strain labels of a plate, in first-occurrence
order. -/
def plateStrainsOf (plate : List PlateWell) : List String :=
  uniqueList (plate.map (fun p => p.strain))

/-- Line 211-212 of the script: remove the blank strain from the strain
list when present (an absent or `None` blank is a no-op here). -/
def strainsAfterBlank (plateStrains : List String) (blank : Option String) :
    List String :=
  match blank with
  | some b => if b ∈ plateStrains then removeFirst plateStrains b else plateStrains
  | none => plateStrains

/-- Lines 213-217: move the reference strain to the front of the
blank-free strain list when present, otherwise flag the
missing-reference warning.  Returns the iteration order and the flag. -/
def orderStrains (plateStrains : List String) (blank : Option String)
    (ref : String) : List String × Bool :=
  let s1 := strainsAfterBlank plateStrains blank
  if ref ∈ s1 then (ref :: removeFirst s1 ref, false) else (s1, true)

/-! ### Fitting loop (`process_file`, lines 219-269) -/

/-- A plotting side effect guarded by the process-wide `PLOT` toggle. -/
def plotGuard (enabled : Bool) (act : Except String Unit) : Except String Unit :=
  if enabled then act else Except.ok ()

/-- The per-file context threaded through the fitting loop: the oracles,
the `PLOT` toggle, the output identifiers, the corrected readings table,
the plate, the reference strain and the final strain iteration list. -/
structure Ctx where
  orc : FitOracle
  pl : PlotOracle
  plotOn : Bool
  folder : String
  filename : String
  df : List Reading
  plate : List PlateWell
  ref : String
  strains : List String

/-- Assembly of the `res` dictionary for one strain (lines 231-251):
file identifiers, fit statistics, parameter values with the fixed
defaults `nu = 1`, `q0 = 0`, `v = 0` for absent parameters, and the
derived traits; the `w` key is not set here. -/
def mkRecord (folder filename strain : String) (fit : Fit)
    (fitResults : List Fit) (orc : FitOracle) : Record :=
  { folder := folder
    filename := filename
    strain := strain
    model := fit.modelName
    RSS := fit.chisqr
    bic := fit.bic
    aic := fit.aic
    benchmark := orc.benchmark fitResults
    y0 := fit.y0
    K := fit.K
    r := fit.r
    nu := fit.nu.getD 1
    q0 := fit.q0.getD 0
    v := fit.v.getD 0
    max_growth_rate := orc.findMaxGrowth fit
    lag := orc.findLag fit
    has_lag := orc.hasLag fitResults
    has_nu := orc.hasNu fitResults
    w := none }

/-- One iteration of the fitting loop (lines 220-268): subset the
readings to the strain, fit, optionally save the per-strain plot,
assemble the record, and set `w`: 1 for the reference strain (caching
its fit), the competition-derived fitness when a reference fit exists,
nothing otherwise.  The unreachable use of an unbound `ref_fit` is a
Python `NameError`. -/
def fitStrain (ctx : Ctx) (refFit : Option Fit) (strain : String) :
    Except String (Record × Option Fit) :=
  let strainDf := ctx.df.filter (fun r => r.strain == strain)
  let fr := ctx.orc.fitModel strainDf
  let base := mkRecord ctx.folder ctx.filename strain fr.1 (fr.1 :: fr.2) ctx.orc
  match plotGuard ctx.plotOn (ctx.pl.plotStrainFit strain) with
  | Except.error e => Except.error e
  | Except.ok _ =>
    if strain = ctx.ref then
      Except.ok ({ base with w := some 1 }, some fr.1)
    else if ctx.ref ∈ ctx.strains then
      match refFit with
      | some rf =>
        let colors :=
          uniqueList ((ctx.plate.filter
            (fun p => p.strain == strain || p.strain == ctx.ref)).map (fun p => p.color))
        let y := ctx.orc.compete fr.1 rf (timeMax ctx.df) colors
        match plotGuard ctx.plotOn (ctx.pl.plotCompetition strain ctx.ref) with
        | Except.error e => Except.error e
        | Except.ok _ =>
          Except.ok ({ base with w := some (ctx.orc.fitnessLTEE y) }, refFit)
      | none => Except.error "NameError: ref_fit referenced before assignment"
    else Except.ok (base, refFit)

/-- The fitting loop over the ordered strain list, threading the cached
reference fit and accumulating the records in iteration order. -/
def fitLoop (ctx : Ctx) : Option Fit → List String → Except String (List Record)
  | _, [] => Except.ok []
  | refFit, s :: rest =>
    match fitStrain ctx refFit s with
    | Except.error e => Except.error e
    | Except.ok (rec, rf) =>
      match fitLoop ctx rf rest with
      | Except.error e => Except.error e
      | Except.ok recs => Except.ok (rec :: recs)

/-! ### `process_file` (lines 174-269) -/

/-- The per-file context built by `process_file` from its arguments. -/
def procCtx (orc : FitOracle) (pl : PlotOracle) (plotOn : Bool)
    (folder filename : String) (df0 : List Reading) (plate : List PlateWell)
    (blank : Option String) (ref : String) : Ctx :=
  { orc := orc
    pl := pl
    plotOn := plotOn
    folder := folder
    filename := filename
    df := (correctionStep df0 blank (plateStrainsOf plate)).1
    plate := plate
    ref := ref
    strains := (orderStrains (plateStrainsOf plate) blank ref).1 }

/-- The warnings `process_file` emits: the missing-blank warning from the
correction step followed by the missing-reference warning from the
ordering step. -/
def procWarns (df0 : List Reading) (plate : List PlateWell)
    (blank : Option String) (ref : String) : List Warn :=
  (correctionStep df0 blank (plateStrainsOf plate)).2 ++
    (if (orderStrains (plateStrainsOf plate) blank ref).2 then [Warn.refMissing] else [])

/-- The records and warnings produced when `process_file` completes. -/
structure ProcOut where
  records : List Record
  warnings : List Warn
deriving DecidableEq

/-- The body of `process_file` after the correction and ordering steps:
the two whole-file plots when plotting is enabled, then the fitting
loop.  A failure in any plotting call propagates (the script has no
handler around them). -/
def processFileCore (ctx : Ctx) (warns : List Warn) : Except String ProcOut :=
  match plotGuard ctx.plotOn (ctx.pl.plotWells ctx.df) with
  | Except.error e => Except.error e
  | Except.ok _ =>
    match plotGuard ctx.plotOn (ctx.pl.plotStrains ctx.df) with
    | Except.error e => Except.error e
    | Except.ok _ =>
      match fitLoop ctx none ctx.strains with
      | Except.error e => Except.error e
      | Except.ok recs => Except.ok ⟨recs, warns⟩

/-- Translation of `process_file` from the parsed readings table on:
background correction, the two whole-file plots when plotting is
enabled, strain ordering, and the fitting loop. -/
def processFile (orc : FitOracle) (pl : PlotOracle) (plotOn : Bool)
    (folder filename : String) (df0 : List Reading) (plate : List PlateWell)
    (blank : Option String) (ref : String) : Except String ProcOut :=
  processFileCore (procCtx orc pl plotOn folder filename df0 plate blank ref)
    (procWarns df0 plate blank ref)

/-! ### `analyse` (lines 130-171) -/

/-- The loop of `analyse` over the discovered files: parse each file with
the external handler (given as an oracle) and run `process_file`,
concatenating the records; any escaping exception aborts the command. -/
def analyseLoop (parse : String → List Reading) (orc : FitOracle)
    (pl : PlotOracle) (plotOn : Bool) (plate : List PlateWell)
    (blank : Option String) (ref : String) : List String → Except CliError (List Record)
  | [] => Except.ok []
  | f :: rest =>
    match processFile orc pl plotOn (dirnameOf f) (stemOf f) (parse f) plate blank ref with
    | Except.error e => Except.error (CliError.other e)
    | Except.ok out =>
      match analyseLoop parse orc pl plotOn plate blank ref rest with
      | Except.error e => Except.error e
      | Except.ok recs => Except.ok (out.records ++ recs)

/-- The `analyse` command from file discovery on: discover the data
files, fail with the `click.ClickException` "no data files found" when
none match, and otherwise process every file and return the output
table's rows.  An error return produces no output table. -/
def analyse (fs : DirFS) (parse : String → List Reading) (orc : FitOracle)
    (pl : PlotOracle) (plotOn : Bool) (path : String) (plate : List PlateWell)
    (blank : Option String) (ref : String) : Except CliError (List Record) :=
  let files := discoverFiles fs path
  if files.isEmpty then
    Except.error (CliError.clickException ("No data files found in folder " ++ path))
  else analyseLoop parse orc pl plotOn plate blank ref files

/-! ### Concrete instances used to evaluate the definitions -/

/-- Default reading used with `List.getD`. -/
def rdflt : Reading := ⟨"", "", 0, 0⟩

/-- A fit with no higher-order parameters. -/
def trivialFit : Fit := ⟨"logistic", 0, 0, 0, 1, 1, 1, none, none, none⟩

/-- Default record used with `List.getD`. -/
def emptyRecord : Record :=
  ⟨"", "", "", "", 0, 0, 0, 0, 0, 0, 0, 1, 0, 0, 0, 0, false, false, none⟩

/-- A constant external-library oracle. -/
def constOracle : FitOracle :=
  { fitModel := fun _ => (trivialFit, [])
    benchmark := fun _ => 0
    findMaxGrowth := fun _ => 0
    findLag := fun _ => 0
    hasLag := fun _ => false
    hasNu := fun _ => false
    compete := fun _ _ _ _ => 0
    fitnessLTEE := fun _ => 2 }

/-- A plotting oracle whose calls all succeed. -/
def okPlotter : PlotOracle :=
  ⟨fun _ => Except.ok (), fun _ => Except.ok (), fun _ => Except.ok (),
   fun _ _ => Except.ok ()⟩

/-- A plotting oracle whose wells plot fails. -/
def failPlotter : PlotOracle :=
  { okPlotter with plotWells := fun _ => Except.error "plot failed" }

/-- A three-strain plate: blank candidate `0`, reference candidate `1`,
competitor `2`. -/
def plateABC : List PlateWell :=
  [⟨"A1", "0", "red"⟩, ⟨"A2", "1", "blue"⟩, ⟨"A3", "2", "green"⟩]

/-- Readings for the three strains of `plateABC` at time 0. -/
def dfABC : List Reading :=
  [⟨"A1", "0", 0, 1⟩, ⟨"A2", "1", 0, 2⟩, ⟨"A3", "2", 0, 3⟩]

/-- A plate without the reference strain `1`. -/
def plateNoRef : List PlateWell :=
  [⟨"A1", "2", "red"⟩, ⟨"A2", "3", "blue"⟩]

/-- Readings for the two strains of `plateNoRef` at time 0. -/
def dfNoRef : List Reading :=
  [⟨"A1", "2", 0, 1⟩, ⟨"A2", "3", 0, 1⟩]

/-- Readings with a blank-strain background of 2 at time 0 and one
reading (strain `1`, optical density 1) below that background. -/
def dfBg : List Reading :=
  [⟨"A1", "0", 0, 2⟩, ⟨"A2", "1", 0, 1⟩]

/-- Project the records and warnings out of a completed `process_file`
run. -/
def getOk (e : Except String ProcOut) : ProcOut :=
  match e with
  | Except.ok o => o
  | Except.error _ => ⟨[], []⟩

/-- Output of `process_file` on `plateABC` with blank `0` absent from the
run (`None`), reference `1` present, plotting off. -/
def outRefFirst : ProcOut :=
  getOk (processFile constOracle okPlotter false "d" "f" dfABC plateABC none "1")

/-- Output of `process_file` on `plateNoRef` with reference `1` absent. -/
def outNoRef : ProcOut :=
  getOk (processFile constOracle okPlotter false "d" "f" dfNoRef plateNoRef none "1")

/-- Output of `process_file` on `plateABC` with plotting enabled and a
plotting oracle that succeeds. -/
def outPlotOk : ProcOut :=
  getOk (processFile constOracle okPlotter true "d" "f" dfABC plateABC none "1")

/-- Output of `process_file` on `plateABC` when the blank strain and the
reference strain are both `1`. -/
def outBlankEqRef : ProcOut :=
  getOk (processFile constOracle okPlotter false "d" "f" [] plateABC (some "1") "1")

/-- A filesystem with one directory `data` holding a recognized and an
unrecognized entry. -/
def fsData : DirFS :=
  { isDir := fun p => p == "data"
    entries := fun p => if p == "data" then ["a.mat", "b.txt"] else []
    globPattern := fun _ => [] }

/-- A filesystem with one directory `empty` holding only an unrecognized
entry. -/
def fsEmpty : DirFS :=
  { isDir := fun p => p == "empty"
    entries := fun p => if p == "empty" then ["notes.txt"] else []
    globPattern := fun _ => [] }

/-- A filesystem in which only `plate_templates/checkerboard.csv`
exists. -/
def fsPlate : PathFS :=
  ⟨fun p => p == "plate_templates/checkerboard.csv"⟩

/-- A filesystem in which nothing exists. -/
def fsNone : PathFS :=
  ⟨fun _ => false⟩

/-- A stand-in for `pkg_resources.resource_filename`. -/
def resPkg : String → String → String :=
  fun folder file => "/pkg/" ++ folder ++ "/" ++ file

/-- A format-handler oracle that parses every file to an empty table. -/
def parseNone : String → List Reading :=
  fun _ => []

/-! ## Helper lemmas -/

theorem mem_of_mem_removeFirst {l : List String} {a x : String}
    (h : x ∈ removeFirst l a) : x ∈ l := by
  induction l with
  | nil => simp [removeFirst] at h
  | cons y ys ih =>
    by_cases hy : y = a
    · rw [removeFirst, if_pos hy] at h
      exact List.mem_cons_of_mem _ h
    · rw [removeFirst, if_neg hy] at h
      rcases List.mem_cons.mp h with h | h
      · exact h ▸ List.mem_cons_self _ _
      · exact List.mem_cons_of_mem _ (ih h)

theorem mem_removeFirst_of_ne {l : List String} {a x : String}
    (hne : x ≠ a) (h : x ∈ l) : x ∈ removeFirst l a := by
  induction l with
  | nil => simp at h
  | cons y ys ih =>
    by_cases hy : y = a
    · rw [removeFirst, if_pos hy]
      rcases List.mem_cons.mp h with h | h
      · exact absurd (h.trans hy) hne
      · exact h
    · rw [removeFirst, if_neg hy]
      rcases List.mem_cons.mp h with h | h
      · exact h ▸ List.mem_cons_self _ _
      · exact List.mem_cons_of_mem _ (ih h)

theorem not_mem_removeFirst_self {l : List String} (hl : l.Nodup) (a : String) :
    a ∉ removeFirst l a := by
  induction l with
  | nil => simp [removeFirst]
  | cons y ys ih =>
    rcases List.nodup_cons.mp hl with ⟨hy, hys⟩
    by_cases h : y = a
    · rw [removeFirst, if_pos h]
      exact fun hc => hy (h ▸ hc)
    · rw [removeFirst, if_neg h]
      intro hc
      rcases List.mem_cons.mp hc with hc | hc
      · exact h hc.symm
      · exact ih hys hc

theorem not_mem_seen_of_mem_uniqueAux {l : List String} :
    ∀ {seen : List String} {a : String}, a ∈ uniqueAux seen l → a ∉ seen := by
  induction l with
  | nil => intro seen a h; simp [uniqueAux] at h
  | cons x xs ih =>
    intro seen a h
    by_cases hx : x ∈ seen
    · rw [uniqueAux, if_pos hx] at h
      exact ih h
    · rw [uniqueAux, if_neg hx] at h
      rcases List.mem_cons.mp h with h | h
      · exact h ▸ hx
      · exact fun hc => ih h (List.mem_cons_of_mem _ hc)

theorem uniqueAux_nodup (l : List String) :
    ∀ seen : List String, (uniqueAux seen l).Nodup := by
  induction l with
  | nil => intro seen; simp [uniqueAux]
  | cons x xs ih =>
    intro seen
    by_cases hx : x ∈ seen
    · rw [uniqueAux, if_pos hx]; exact ih seen
    · rw [uniqueAux, if_neg hx]
      refine List.nodup_cons.mpr ⟨fun hc => ?_, ih (x :: seen)⟩
      exact not_mem_seen_of_mem_uniqueAux hc (List.mem_cons_self _ _)

theorem uniqueList_nodup (l : List String) : (uniqueList l).Nodup :=
  uniqueAux_nodup l []

theorem plateStrainsOf_nodup (plate : List PlateWell) :
    (plateStrainsOf plate).Nodup :=
  uniqueList_nodup _

theorem mem_of_mem_strainsAfterBlank {plateStrains : List String}
    {blank : Option String} {x : String}
    (h : x ∈ strainsAfterBlank plateStrains blank) : x ∈ plateStrains := by
  cases blank with
  | none => exact h
  | some b =>
    by_cases hb : b ∈ plateStrains
    · rw [strainsAfterBlank, if_pos hb] at h
      exact mem_of_mem_removeFirst h
    · rwa [strainsAfterBlank, if_neg hb] at h

theorem mem_strainsAfterBlank {plateStrains : List String}
    {blank : Option String} {ref : String}
    (href : ref ∈ plateStrains) (hblank : blank ≠ some ref) :
    ref ∈ strainsAfterBlank plateStrains blank := by
  cases blank with
  | none => exact href
  | some b =>
    have hne : ref ≠ b := fun hc => hblank (by rw [hc])
    by_cases hb : b ∈ plateStrains
    · rw [strainsAfterBlank, if_pos hb]
      exact mem_removeFirst_of_ne hne href
    · rwa [strainsAfterBlank, if_neg hb]

theorem orderStrains_of_mem {plateStrains : List String} {blank : Option String}
    {ref : String} (h : ref ∈ strainsAfterBlank plateStrains blank) :
    orderStrains plateStrains blank ref =
      (ref :: removeFirst (strainsAfterBlank plateStrains blank) ref, false) := by
  rw [orderStrains, if_pos h]

theorem orderStrains_of_not_mem {plateStrains : List String} {blank : Option String}
    {ref : String} (h : ref ∉ strainsAfterBlank plateStrains blank) :
    orderStrains plateStrains blank ref =
      (strainsAfterBlank plateStrains blank, true) := by
  rw [orderStrains, if_neg h]

theorem fitStrain_ok_strain {ctx : Ctx} {refFit : Option Fit} {s : String}
    {rec : Record} {rf : Option Fit}
    (h : fitStrain ctx refFit s = Except.ok (rec, rf)) : rec.strain = s := by
  unfold fitStrain at h
  split at h
  · exact absurd h (by simp)
  · split at h
    · simp only [Except.ok.injEq, Prod.mk.injEq] at h
      rw [← h.1]
      rfl
    · split at h
      · split at h
        · split at h
          · exact absurd h (by simp)
          · simp only [Except.ok.injEq, Prod.mk.injEq] at h
            rw [← h.1]
            rfl
        · exact absurd h (by simp)
      · simp only [Except.ok.injEq, Prod.mk.injEq] at h
        rw [← h.1]
        rfl

theorem fitStrain_ok_w_none {ctx : Ctx} {refFit : Option Fit} {s : String}
    {rec : Record} {rf : Option Fit}
    (hs : s ≠ ctx.ref) (hr : ctx.ref ∉ ctx.strains)
    (h : fitStrain ctx refFit s = Except.ok (rec, rf)) : rec.w = none := by
  unfold fitStrain at h
  split at h
  · exact absurd h (by simp)
  · rw [if_neg hs, if_neg hr] at h
    simp only [Except.ok.injEq, Prod.mk.injEq] at h
    rw [← h.1]
    rfl

theorem fitStrain_ok_of_ref {ctx : Ctx} {refFit : Option Fit}
    {rec : Record} {rf : Option Fit}
    (h : fitStrain ctx refFit ctx.ref = Except.ok (rec, rf)) :
    rec.strain = ctx.ref ∧ rec.w = some 1 := by
  unfold fitStrain at h
  split at h
  · exact absurd h (by simp)
  · rw [if_pos rfl] at h
    simp only [Except.ok.injEq, Prod.mk.injEq] at h
    exact ⟨by rw [← h.1]; rfl, by rw [← h.1]⟩

theorem fitLoop_cons_ok {ctx : Ctx} {rf : Option Fit} {s : String}
    {rest : List String} {recs : List Record}
    (h : fitLoop ctx rf (s :: rest) = Except.ok recs) :
    ∃ rec rf2 recs2, fitStrain ctx rf s = Except.ok (rec, rf2) ∧
      fitLoop ctx rf2 rest = Except.ok recs2 ∧ recs = rec :: recs2 := by
  unfold fitLoop at h
  split at h
  · exact absurd h (by simp)
  · rename_i rec rf2 heq
    split at h
    · exact absurd h (by simp)
    · rename_i recs2 heq2
      simp only [Except.ok.injEq] at h
      exact ⟨rec, rf2, recs2, heq, heq2, h.symm⟩

theorem fitLoop_ok_strains {ctx : Ctx} {l : List String} :
    ∀ {rf : Option Fit} {recs : List Record},
      fitLoop ctx rf l = Except.ok recs →
      recs.map (fun r => r.strain) = l := by
  induction l with
  | nil =>
    intro rf recs h
    simp only [fitLoop, Except.ok.injEq] at h
    rw [← h]
    rfl
  | cons s rest ih =>
    intro rf recs h
    obtain ⟨rec, rf2, recs2, h1, h2, h3⟩ := fitLoop_cons_ok h
    rw [h3]
    simp only [List.map_cons]
    rw [fitStrain_ok_strain h1, ih h2]

theorem fitLoop_ok_w_none {ctx : Ctx} (hr : ctx.ref ∉ ctx.strains) {l : List String} :
    ∀ {rf : Option Fit} {recs : List Record},
      (∀ x ∈ l, x ∈ ctx.strains) →
      fitLoop ctx rf l = Except.ok recs →
      ∀ r ∈ recs, r.w = none := by
  induction l with
  | nil =>
    intro rf recs _ h
    simp only [fitLoop, Except.ok.injEq] at h
    rw [← h]
    simp
  | cons s rest ih =>
    intro rf recs hsub h
    obtain ⟨rec, rf2, recs2, h1, h2, h3⟩ := fitLoop_cons_ok h
    have hsmem : s ∈ ctx.strains := hsub s (List.mem_cons_self _ _)
    have hs : s ≠ ctx.ref := fun hc => hr (hc ▸ hsmem)
    intro r hrmem
    rw [h3] at hrmem
    rcases List.mem_cons.mp hrmem with hrm | hrm
    · exact hrm ▸ fitStrain_ok_w_none hs hr h1
    · exact ih (fun x hx => hsub x (List.mem_cons_of_mem _ hx)) h2 r hrm

theorem processFile_ok {orc : FitOracle} {pl : PlotOracle} {plotOn : Bool}
    {folder filename : String} {df0 : List Reading} {plate : List PlateWell}
    {blank : Option String} {ref : String} {out : ProcOut}
    (h : processFile orc pl plotOn folder filename df0 plate blank ref =
      Except.ok out) :
    fitLoop (procCtx orc pl plotOn folder filename df0 plate blank ref) none
        (orderStrains (plateStrainsOf plate) blank ref).1 = Except.ok out.records ∧
    out.warnings = procWarns df0 plate blank ref := by
  unfold processFile processFileCore at h
  split at h
  · exact absurd h (by simp)
  · split at h
    · exact absurd h (by simp)
    · split at h
      · exact absurd h (by simp)
      · rename_i recs heq
        simp only [Except.ok.injEq] at h
        rw [← h]
        exact ⟨heq, rfl⟩

/-! ## Claim theorems -/

/-- C7: `find_plate_file` returns `folder/file` when that path exists,
otherwise the bundled package-resource path when that exists, and
otherwise fails with a `click.FileError` carrying the human-readable
hint `can't find file.`. -/
theorem find_plate_file_resolution (fs : PathFS) (res : String → String → String)
    (folder file : String) :
    (fs.pathExists (osPathJoin folder file) = true →
      find_plate_file fs res folder file = Except.ok (osPathJoin folder file)) ∧
    (fs.pathExists (osPathJoin folder file) = false →
      fs.pathExists (res folder file) = true →
      find_plate_file fs res folder file = Except.ok (res folder file)) ∧
    (fs.pathExists (osPathJoin folder file) = false →
      fs.pathExists (res folder file) = false →
      find_plate_file fs res folder file =
        Except.error (CliError.fileError (res folder file) "can't find file.")) := by
  refine ⟨fun h1 => ?_, fun h1 h2 => ?_, fun h1 h2 => ?_⟩
  · simp [find_plate_file, h1]
  · simp [find_plate_file, h1, h2]
  · simp [find_plate_file, h1, h2]

/-- Witness for C7: on a filesystem where `plate_templates/checkerboard.csv`
exists, `find_plate_file` resolves it in the working directory. -/
theorem find_plate_file_resolution_witness :
    find_plate_file fsPlate resPkg "plate_templates" "checkerboard.csv" =
      Except.ok (osPathJoin "plate_templates" "checkerboard.csv") :=
  (find_plate_file_resolution fsPlate resPkg "plate_templates"
    "checkerboard.csv").1 (by decide)

/-- C9: a record assembled for a fit lacking the higher-order parameters
uses the fixed defaults `nu = 1`, `q0 = 0`, `v = 0`. -/
theorem record_param_defaults (folder filename strain : String) (fit : Fit)
    (rest : List Fit) (orc : FitOracle)
    (hnu : fit.nu = none) (hq0 : fit.q0 = none) (hv : fit.v = none) :
    (mkRecord folder filename strain fit (fit :: rest) orc).nu = 1 ∧
    (mkRecord folder filename strain fit (fit :: rest) orc).q0 = 0 ∧
    (mkRecord folder filename strain fit (fit :: rest) orc).v = 0 := by
  refine ⟨?_, ?_, ?_⟩ <;> simp [mkRecord, hnu, hq0, hv]

/-- Witness for C9 at a concrete fit with no higher-order parameters. -/
theorem record_param_defaults_witness :
    (mkRecord "d" "f" "s" trivialFit [trivialFit] constOracle).nu = 1 ∧
    (mkRecord "d" "f" "s" trivialFit [trivialFit] constOracle).q0 = 0 ∧
    (mkRecord "d" "f" "s" trivialFit [trivialFit] constOracle).v = 0 :=
  record_param_defaults "d" "f" "s" trivialFit [trivialFit] constOracle rfl rfl rfl

/-- C8: loading a well-formed plate CSV file and re-serializing it
without the index (the `plate` command) returns the table unchanged, so
the result has the same strain set and the same row count as the
input. -/
theorem plate_roundtrip (header : List String) (rows : List (List String)) :
    ∃ out, plateCommand (header :: rows) = Except.ok out ∧
      (strainColumnOf out).toFinset = (strainColumnOf (header :: rows)).toFinset ∧
      out.length = (header :: rows).length :=
  ⟨header :: rows, rfl, rfl, rfl⟩

/-- C4 (code bug): on the relative directory path `data` containing the
entries `a.mat` and `b.txt`, discovery keeps exactly the entry with the
recognized extension but joins the directory prefix onto an
already-joined path, so the returned path does not refer to the
directory entry `data/a.mat`. -/
theorem discover_double_join :
    fsData.isDir "data" = true ∧
    fsData.entries "data" = ["a.mat", "b.txt"] ∧
    discoverFiles fsData "data" = ["data/data/a.mat"] ∧
    "data/a.mat" ∉ discoverFiles fsData "data" := by
  refine ⟨rfl, rfl, rfl, by decide⟩

/-- C5: when the extension-filtered set of discovered files is empty,
`analyse` fails with the user-level `click.ClickException`
"no data files found" and produces no output table. -/
theorem analyse_no_files (fs : DirFS) (parse : String → List Reading)
    (orc : FitOracle) (pl : PlotOracle) (plotOn : Bool) (path : String)
    (plate : List PlateWell) (blank : Option String) (ref : String)
    (h : discoverFiles fs path = []) :
    analyse fs parse orc pl plotOn path plate blank ref =
      Except.error (CliError.clickException ("No data files found in folder " ++ path)) ∧
    ∀ t, analyse fs parse orc pl plotOn path plate blank ref ≠ Except.ok t := by
  have h1 : analyse fs parse orc pl plotOn path plate blank ref =
      Except.error (CliError.clickException ("No data files found in folder " ++ path)) := by
    simp [analyse, h]
  exact ⟨h1, fun t hc => by rw [h1] at hc; exact Except.noConfusion hc⟩

/-- Witness for C5: a directory containing only an unrecognized file
makes `analyse` fail with the no-data-files error. -/
theorem analyse_no_files_witness :
    analyse fsEmpty parseNone constOracle okPlotter false "empty" plateABC none "1" =
      Except.error (CliError.clickException ("No data files found in folder " ++ "empty")) :=
  (analyse_no_files fsEmpty parseNone constOracle okPlotter false "empty"
    plateABC none "1" (by decide)).1

/-- C1: with the blank strain present among the plate strains, the
correction step of `process_file` subtracts the mean blank-strain
optical density at the minimum observed time from every row and clamps
at zero: row `i` of the corrected table is row `i` of the input with
exactly that background subtracted (clamped), no corrected optical
density is negative, and every row whose original optical density lies
below the background becomes exactly zero. -/
theorem background_correction_clamps (df0 : List Reading) (b : String)
    (plateStrains : List String) (hb : b ∈ plateStrains)
    (_hrow : ∃ r ∈ df0, r.strain = b ∧ r.time = timeMin df0) :
    (∀ i, i < df0.length →
      ((correctionStep df0 (some b) plateStrains).1.getD i rdflt).od =
        (if (df0.getD i rdflt).od - bgMean df0 b < 0 then 0
         else (df0.getD i rdflt).od - bgMean df0 b)) ∧
    (∀ r ∈ (correctionStep df0 (some b) plateStrains).1, 0 ≤ r.od) ∧
    (∀ i, i < df0.length →
      (df0.getD i rdflt).od < bgMean df0 b →
      ((correctionStep df0 (some b) plateStrains).1.getD i rdflt).od = 0) := by
  have hcs : (correctionStep df0 (some b) plateStrains).1 = backgroundCorrect df0 b := by
    simp [correctionStep, hb]
  have key : ∀ i, i < df0.length →
      ((correctionStep df0 (some b) plateStrains).1.getD i rdflt).od =
        (if (df0.getD i rdflt).od - bgMean df0 b < 0 then 0
         else (df0.getD i rdflt).od - bgMean df0 b) := by
    intro i hi
    rw [hcs]
    unfold backgroundCorrect
    simp only [List.getD_eq_getElem?_getD, List.getElem?_map,
      List.getElem?_eq_getElem hi, Option.map_some', Option.getD_some]
  refine ⟨key, ?_, ?_⟩
  · intro r hr
    rw [hcs] at hr
    unfold backgroundCorrect at hr
    rcases List.mem_map.mp hr with ⟨x, _, hfx⟩
    rw [← hfx]
    by_cases hneg : x.od - bgMean df0 b < 0
    · simp [hneg]
    · simp only [if_neg hneg]
      exact le_of_not_lt hneg
  · intro i hi hlt
    rw [key i hi, if_pos (sub_neg.mpr hlt)]

/-- Witness for C1: with background 2 and a reading at optical density 1,
the corrected reading is exactly zero. -/
theorem background_correction_clamps_witness :
    ((correctionStep dfBg (some "0") ["0", "1"]).1.getD 1 rdflt).od = 0 := by
  have h := background_correction_clamps dfBg "0" ["0", "1"] (by decide)
    ⟨⟨"A1", "0", 0, 2⟩, by decide, rfl, rfl⟩
  refine h.2.2 1 (by decide) ?_
  show (dfBg.getD 1 rdflt).od < bgMean dfBg "0"
  have hbg : bgMean dfBg "0" = 2 := by
    simp +decide [bgMean, dfBg, timeMin]
  rw [hbg]
  norm_num [dfBg, rdflt]

/-- C2 counterexample: with blank strain = reference strain = `1`,
present among the plate strains, the reference is removed as the blank:
the fitting iteration order is `["0", "2"]` (the reference is not first)
and neither produced record carries fitness 1. -/
theorem ref_first_counterexample :
    "1" ∈ plateStrainsOf plateABC ∧
    (orderStrains (plateStrainsOf plateABC) (some "1") "1").1 = ["0", "2"] ∧
    processFile constOracle okPlotter false "d" "f" [] plateABC (some "1") "1" =
      Except.ok outBlankEqRef ∧
    outBlankEqRef.records.length = 2 ∧
    (outBlankEqRef.records.getD 0 emptyRecord).w = none ∧
    (outBlankEqRef.records.getD 1 emptyRecord).w = none :=
  ⟨by decide, rfl, rfl, rfl, rfl, rfl⟩

/-- C2 (amended): when the reference strain is present among the plate
strains and differs from the blank strain, it is the first strain in the
fitting iteration order, and on completion the first record is the
reference strain's record with fitness 1. -/
theorem ref_strain_first (orc : FitOracle) (pl : PlotOracle) (plotOn : Bool)
    (folder filename : String) (df0 : List Reading) (plate : List PlateWell)
    (blank : Option String) (ref : String) (out : ProcOut)
    (href : ref ∈ plateStrainsOf plate) (hblank : blank ≠ some ref)
    (hok : processFile orc pl plotOn folder filename df0 plate blank ref =
      Except.ok out) :
    (orderStrains (plateStrainsOf plate) blank ref).1.head? = some ref ∧
    out.records.map (fun r => r.strain) =
      (orderStrains (plateStrainsOf plate) blank ref).1 ∧
    (out.records.getD 0 emptyRecord).strain = ref ∧
    (out.records.getD 0 emptyRecord).w = some 1 := by
  have hmem : ref ∈ strainsAfterBlank (plateStrainsOf plate) blank :=
    mem_strainsAfterBlank href hblank
  have hord := orderStrains_of_mem hmem
  obtain ⟨hloop, _⟩ := processFile_ok hok
  have hstr := fitLoop_ok_strains hloop
  rw [hord] at hloop
  obtain ⟨rec, rf2, recs2, h1, _, h3⟩ := fitLoop_cons_ok hloop
  obtain ⟨hs, hw⟩ := fitStrain_ok_of_ref h1
  refine ⟨by rw [hord]; rfl, hstr, ?_, ?_⟩
  · rw [h3, List.getD_cons_zero]
    exact hs
  · rw [h3, List.getD_cons_zero]
    exact hw

/-- Witness for C2's amended statement at a concrete completed run. -/
theorem ref_strain_first_witness :
    (orderStrains (plateStrainsOf plateABC) none "1").1.head? = some "1" ∧
    (outRefFirst.records.getD 0 emptyRecord).strain = "1" ∧
    (outRefFirst.records.getD 0 emptyRecord).w = some 1 := by
  have h := ref_strain_first constOracle okPlotter false "d" "f" dfABC plateABC
    none "1" outRefFirst (by decide) (by decide) rfl
  exact ⟨h.1, h.2.2.1, h.2.2.2⟩

/-- C3: when the reference strain is absent from the plate strains, the
missing-reference warning is flagged and emitted, processing continues
over the remaining strains (one record per strain, in order), and no
record carries a fitness value. -/
theorem ref_strain_absent (orc : FitOracle) (pl : PlotOracle) (plotOn : Bool)
    (folder filename : String) (df0 : List Reading) (plate : List PlateWell)
    (blank : Option String) (ref : String) (out : ProcOut)
    (href : ref ∉ plateStrainsOf plate)
    (hok : processFile orc pl plotOn folder filename df0 plate blank ref =
      Except.ok out) :
    (orderStrains (plateStrainsOf plate) blank ref).2 = true ∧
    Warn.refMissing ∈ out.warnings ∧
    out.records.map (fun r => r.strain) =
      (orderStrains (plateStrainsOf plate) blank ref).1 ∧
    ∀ r ∈ out.records, r.w = none := by
  have hnot : ref ∉ strainsAfterBlank (plateStrainsOf plate) blank :=
    fun hc => href (mem_of_mem_strainsAfterBlank hc)
  have hord := orderStrains_of_not_mem hnot
  obtain ⟨hloop, hwarn⟩ := processFile_ok hok
  refine ⟨by rw [hord], ?_, fitLoop_ok_strains hloop, ?_⟩
  · rw [hwarn]
    unfold procWarns
    rw [hord]
    exact List.mem_append_right _ (List.mem_singleton_self _)
  · have hrnot : (procCtx orc pl plotOn folder filename df0 plate blank ref).ref ∉
        (procCtx orc pl plotOn folder filename df0 plate blank ref).strains := by
      show ref ∉ (orderStrains (plateStrainsOf plate) blank ref).1
      rw [hord]
      exact hnot
    exact fitLoop_ok_w_none hrnot (fun x hx => hx) hloop

/-- Witness for C3 at a concrete plate lacking the reference strain. -/
theorem ref_strain_absent_witness :
    (orderStrains (plateStrainsOf plateNoRef) none "1").2 = true ∧
    Warn.refMissing ∈ outNoRef.warnings ∧
    outNoRef.records.length = 2 := by
  have h := ref_strain_absent constOracle okPlotter false "d" "f" dfNoRef
    plateNoRef none "1" outNoRef (by decide) rfl
  exact ⟨h.1, h.2.1, rfl⟩

/-- C6 (code bug): the script installs no exception handler around its
plotting calls, so a failing wells-plot call aborts `process_file`
entirely and no records are produced, whereas the same input with
working plotting completes with one record per strain. -/
theorem plot_failure_aborts :
    processFile constOracle failPlotter true "d" "f" dfABC plateABC none "1" =
      Except.error "plot failed" ∧
    processFile constOracle okPlotter true "d" "f" dfABC plateABC none "1" =
      Except.ok outPlotOk ∧
    outPlotOk.records.length = 3 :=
  ⟨rfl, rfl, rfl⟩

/-- C10: when the blank strain equals the reference strain and is present
among the plate strains, the blank removal precedes the reference check,
so the reference is treated as absent: the missing-reference warning is
emitted, the coinciding strain is not in the iteration order and is
never fitted, and no record carries a fitness value. -/
theorem blank_equals_ref (orc : FitOracle) (pl : PlotOracle) (plotOn : Bool)
    (folder filename : String) (df0 : List Reading) (plate : List PlateWell)
    (ref : String) (out : ProcOut)
    (href : ref ∈ plateStrainsOf plate)
    (hok : processFile orc pl plotOn folder filename df0 plate (some ref) ref =
      Except.ok out) :
    (orderStrains (plateStrainsOf plate) (some ref) ref).2 = true ∧
    ref ∉ (orderStrains (plateStrainsOf plate) (some ref) ref).1 ∧
    Warn.refMissing ∈ out.warnings ∧
    (∀ r ∈ out.records, r.strain ≠ ref) ∧
    (∀ r ∈ out.records, r.w = none) := by
  have hs1 : strainsAfterBlank (plateStrainsOf plate) (some ref) =
      removeFirst (plateStrainsOf plate) ref := by
    simp only [strainsAfterBlank, if_pos href]
  have hnot : ref ∉ strainsAfterBlank (plateStrainsOf plate) (some ref) := by
    rw [hs1]
    exact not_mem_removeFirst_self (plateStrainsOf_nodup plate) ref
  have hord := orderStrains_of_not_mem hnot
  obtain ⟨hloop, hwarn⟩ := processFile_ok hok
  have hstr := fitLoop_ok_strains hloop
  refine ⟨by rw [hord], ?_, ?_, ?_, ?_⟩
  · rw [hord]
    exact hnot
  · rw [hwarn]
    unfold procWarns
    rw [hord]
    exact List.mem_append_right _ (List.mem_singleton_self _)
  · intro r hrm hc
    have hmem : r.strain ∈ (orderStrains (plateStrainsOf plate) (some ref) ref).1 := by
      rw [← hstr]
      exact List.mem_map_of_mem _ hrm
    rw [hc, hord] at hmem
    exact hnot hmem
  · have hrnot : (procCtx orc pl plotOn folder filename df0 plate (some ref) ref).ref ∉
        (procCtx orc pl plotOn folder filename df0 plate (some ref) ref).strains := by
      show ref ∉ (orderStrains (plateStrainsOf plate) (some ref) ref).1
      rw [hord]
      exact hnot
    exact fitLoop_ok_w_none hrnot (fun x hx => hx) hloop

/-- Witness for C10 at a concrete run with blank strain = reference
strain = `1`. -/
theorem blank_equals_ref_witness :
    (orderStrains (plateStrainsOf plateABC) (some "1") "1").2 = true ∧
    Warn.refMissing ∈ outBlankEqRef.warnings := by
  have h := blank_equals_ref constOracle okPlotter false "d" "f" [] plateABC "1"
    outBlankEqRef (by decide) rfl
  exact ⟨h.1, h.2.2.1⟩

end Curveball
